import Mathlib

-- A shallow embedding of the openapi3filter response-validation pipeline
-- (ValidateResponse and its helpers getSchemaIdentifier and
-- prependSpaceIfNeeded) of the kin-openapi repository, together with
-- theorems about its behavior.  External collaborators (the schema
-- matching engine VisitJSON and the body decoder decodeBody) are passed
-- in as oracle functions; contract-document types from the openapi3
-- package, which are outside the source file, are modelled from the
-- specification's data model.

namespace OAIF

/-- Body stream: reading an HTTP response body to exhaustion either fails
with an I/O error or yields the full byte sequence.  This models the
io.ReadCloser consumed once by ioutil.ReadAll. -/
abbrev BodyStream := Except String (List Nat)

instance exceptDecEq {ε α : Type} [DecidableEq ε] [DecidableEq α] :
    DecidableEq (Except ε α) := fun a b =>
  match a, b with
  | Except.ok x, Except.ok y =>
    if h : x = y then isTrue (by rw [h])
    else isFalse (fun hh => by cases hh; exact h rfl)
  | Except.ok _, Except.error _ => isFalse (fun hh => Except.noConfusion hh)
  | Except.error _, Except.ok _ => isFalse (fun hh => Except.noConfusion hh)
  | Except.error x, Except.error y =>
    if h : x = y then isTrue (by rw [h])
    else isFalse (fun hh => by cases hh; exact h rfl)

/-- ASCII lower-casing of one character, used to model the
case-insensitive key handling of net/http headers. -/
def lowerChar (c : Char) : Char :=
  if 65 ≤ c.toNat ∧ c.toNat ≤ 90 then Char.ofNat (c.toNat + 32) else c

/-- Case-insensitive canonical form of a header name (net/http headers
are case-insensitive; both sides of every comparison are lowered). -/
def strToLower (s : String) : String :=
  String.mk (s.data.map lowerChar)

/-- White space as trimmed by Go strings.TrimSpace (unicode.IsSpace on
the Latin-1 range). -/
def isGoSpace (c : Char) : Bool :=
  c.toNat == 9 || c.toNat == 10 || c.toNat == 11 || c.toNat == 12 ||
  c.toNat == 13 || c.toNat == 32 || c.toNat == 133 || c.toNat == 160

/-- Go strings.TrimSpace: remove leading and trailing white space. -/
def goTrimSpace (s : String) : String :=
  String.mk (((s.data.dropWhile isGoSpace).reverse.dropWhile isGoSpace).reverse)

/-- Byte-wise lexicographic comparison of character lists, as used by Go
sort.Strings on header names. -/
def strListLe : List Char → List Char → Bool
  | [], _ => true
  | _ :: _, [] => false
  | a :: as, b :: bs =>
    if a.toNat < b.toNat then true
    else if b.toNat < a.toNat then false
    else strListLe as bs

/-- Lexicographic order on strings (Go sort.Strings). -/
def strLe (a b : String) : Bool :=
  strListLe a.data b.data

/-- Modelled from the spec: the ValueShape (openapi3.Schema, not under
src/) is opaque to this core; the only field the source file reads is the
declared Title (in getSchemaIdentifier). -/
structure Schema where
  title : String
  deriving DecidableEq

/-- openapi3.SchemaRef (not under src/): a reference string together with
the resolved schema value, which is nil for a dangling reference. -/
structure SchemaRef where
  ref : String
  value : Option Schema
  deriving DecidableEq

/-- Modelled from the spec: a declared response header (openapi3.Header,
not under src/): the data model maps a header name to its required flag
and its ValueShape. -/
structure HeaderSpec where
  required : Bool
  schema : Option Schema
  deriving DecidableEq

/-- openapi3.MediaType (not under src/): optional schema reference plus
per-field encoding metadata (opaque values here). -/
structure MediaType where
  schema : Option SchemaRef
  encoding : List (String × String)
  deriving DecidableEq

/-- openapi3.Response (not under src/): declared headers and the content
table of one response definition. -/
structure Response where
  headers : List (String × HeaderSpec)
  content : List (String × MediaType)
  deriving DecidableEq

/-- openapi3.ResponseRef (not under src/): the resolved value is nil when
the reference is dangling. -/
structure ResponseRef where
  value : Option Response
  deriving DecidableEq

/-- The Options value consumed by ValidateResponse (options.go is not
under src/); the field set is exactly the set of fields the source file
reads.  The custom error message function is opaque: only its presence is
observable in this file. -/
structure Options where
  includeResponseStatus : Bool
  excludeResponseBody : Bool
  multiError : Bool
  customSchemaErrorFunc : Option Unit
  deriving DecidableEq

/-- Modelled from the spec: DefaultOptions, the process-wide default
instance with every switch off. -/
def DefaultOptions : Options :=
  { includeResponseStatus := false, excludeResponseBody := false,
    multiError := false, customSchemaErrorFunc := none }

/-- ResponseError (defined outside src/): the failure value built by the
source file carries a Reason message and the wrapped cause Err.  The
back-reference to the input is omitted here; the spec's failure kinds
correspond one-to-one to the Reason messages built in the source file. -/
structure ResponseError where
  reason : String
  err : Option String
  deriving DecidableEq

/-- Outcome of one validation call: nil error, a ResponseError, or a Go
runtime panic (crash), tagged with a message naming the faulting site. -/
inductive VOutcome where
  | ok : VOutcome
  | fail : ResponseError → VOutcome
  | crash : String → VOutcome
  deriving DecidableEq

/-- Result of running ValidateResponse: the returned outcome together with
the final value of the input's Body field, which is the one observable
side effect of the pipeline. -/
structure VResult where
  outcome : VOutcome
  body : Option BodyStream
  deriving DecidableEq

/-- openapi3.SchemaValidationOption (not under src/): the three option
constructors the source file uses, identified by presence. -/
inductive SchemaOpt where
  | multiErrors : SchemaOpt
  | customizer : SchemaOpt
  | visitAsResponse : SchemaOpt
  deriving DecidableEq

/-- ResponseValidationInput, flattened: the request method is
input.RequestValidationInput.Request.Method, the response table is
input.RequestValidationInput.Route.Operation.Responses, and the other
fields are input.Status, input.Header, input.Body and input.Options.
A none body models a nil Body field; none options model nil Options,
replaced by DefaultOptions at line 42. -/
structure ResponseValidationInput where
  method : String
  status : Nat
  header : List (String × String)
  body : Option BodyStream
  options : Option Options
  responses : List (String × ResponseRef)
  deriving DecidableEq

/-- First-binding lookup in an association list, modelling Go map indexing
(a Go map has distinct keys). -/
def lookupFirst {β : Type} (l : List (String × β)) (k : String) : Option β :=
  (l.find? (fun p => p.1 == k)).map (fun p => p.2)

/-- net/http Header.Get: case-insensitive lookup of the first value for a
key, returning the empty string when the header is absent. -/
def headerGet (observed : List (String × String)) (k : String) : String :=
  match observed.find? (fun p => strToLower p.1 == strToLower k) with
  | some p => p.2
  | none => ""

/-- Modelled from the spec: openapi3.Responses.Get (not under src/) looks
up the exact decimal status key in the response table. -/
def responsesGet (rs : List (String × ResponseRef)) (status : Nat) : Option ResponseRef :=
  lookupFirst rs (toString status)

/-- Modelled from the spec: openapi3.Responses.Default (not under src/)
looks up the sentinel key of the catch-all response definition. -/
def responsesDefault (rs : List (String × ResponseRef)) : Option ResponseRef :=
  lookupFirst rs ("default")

/-- Lines 50-53 of the source: exact status entry first, then the default
entry. -/
def lookupResponseRef (rs : List (String × ResponseRef)) (status : Nat) : Option ResponseRef :=
  match responsesGet rs status with
  | some r => some r
  | none => responsesDefault rs

/-- The Content-Type header name, constant headerCT of the package
(defined outside src/). -/
def headerCT : String := "Content-Type"

/-- Main type of a MIME value: the part before the first slash. -/
def mimeMainType (mime : String) : String :=
  String.mk (mime.data.takeWhile (fun c => c != '/'))

/-- Modelled from the spec: openapi3.Content.Get (not under src/) returns
the best-matching content entry for the observed media type: the exact
media type first, then a main-type wildcard, then the catch-all entry. -/
def contentGet (content : List (String × MediaType)) (mime : String) : Option MediaType :=
  match lookupFirst content mime with
  | some mt => some mt
  | none =>
    match lookupFirst content (mimeMainType mime ++ "/*") with
    | some mt => some mt
    | none => lookupFirst content ("*/*")

/-- Lines 190-195: prependSpaceIfNeeded. -/
def prependSpaceIfNeeded (value : String) : String :=
  if value.length > 0 then " " ++ value else value

/-- Go fmt %q applied to a name without escape characters: the value
wrapped in double quotes. -/
def goQuote (s : String) : String :=
  "\"" ++ s ++ "\""

/-- Lines 177-188: getSchemaIdentifier.  The argument is the possibly-nil
SchemaRef pointer.  The nil check guards only the read of the Ref field;
whenever the trimmed reference is empty the Value field is read
unconditionally, so a nil argument dereferences a nil pointer, modelled
as the none result. -/
def getSchemaIdentifier (schema : Option SchemaRef) : Option String :=
  let id := match schema with
    | some s => goTrimSpace s.ref
    | none => ""
  if id = "" then
    match schema with
    | none => none
    | some s =>
      match s.value with
      | some v => some (goTrimSpace v.title)
      | none => some id
  else some id

/-- Lines 66-72: assemble the schema validation options handed to the
engine: MultiErrors when the MultiError option is set, then the message
customizer when one is registered. -/
def buildOpts (o : Options) : List SchemaOpt :=
  (if o.multiError then [SchemaOpt.multiErrors] else []) ++
  (if o.customSchemaErrorFunc.isSome then [SchemaOpt.customizer] else [])

/-- The schema-matching engine VisitJSON as an external collaborator: it
receives the possibly-nil schema value, the value under test and the
option list; a none result means the value matches the schema. -/
abbrev VisitFn := Option Schema → String → List SchemaOpt → Option String

/-- The body decoder decodeBody (defined outside src/) as an external
collaborator: it receives the captured body bytes, the observed headers,
the schema reference and the encoding lookup function; it returns the
decoded value or an error. -/
abbrev DecodeFn :=
  List Nat → List (String × String) → SchemaRef → (String → Option String) → Except String String

/-- Lines 82-99: the per-header check of the header loop body.  The key k
is always drawn from the declared header keys, so the none lookup branch
is unreachable inside the pipeline; it checks nothing. -/
def checkHeader (visit : VisitFn) (opts : List SchemaOpt)
    (hs : List (String × HeaderSpec)) (observed : List (String × String))
    (k : String) : Option ResponseError :=
  match lookupFirst hs k with
  | none => none
  | some s =>
    if headerGet observed k = "" then
      if s.required then
        some { reason := "response header " ++ goQuote k ++ " missing", err := none }
      else none
    else
      match visit s.schema (headerGet observed k) opts with
      | some e =>
        some { reason := "response header " ++ goQuote k ++ " doesn\x27t match the schema",
               err := some e }
      | none => none

/-- Lines 81-100: the header loop; the first failing header's error is
returned and no later header is examined. -/
def validateHeaders (visit : VisitFn) (opts : List SchemaOpt)
    (hs : List (String × HeaderSpec)) (observed : List (String × String)) :
    List String → Option ResponseError
  | [] => none
  | k :: ks =>
    match checkHeader visit opts hs observed k with
    | some e => some e
    | none => validateHeaders visit opts hs observed ks

/-- Lines 74-80: collect the declared header names other than Content-Type
and sort them lexicographically (sort.Strings). -/
def sortedHeaderKeys (hs : List (String × HeaderSpec)) : List String :=
  List.insertionSort (fun a b => strLe a b = true)
    ((hs.map Prod.fst).filter (fun k => k != headerCT))

/-- Crash message for the body stage reached with a nil Body reader. -/
def nilBodyMsg : String := "nil body reader"

/-- Crash message for a nil-pointer dereference inside
getSchemaIdentifier. -/
def nilSchemaMsg : String := "nil SchemaRef dereference in getSchemaIdentifier"

/-- Lines 122-171: the body stage, given the negotiated media type.  The
Body field is set to nil before the read; on a read failure it stays nil,
and after a successful read it is repopulated with the captured bytes
(SetBodyBytes).  The schema identifier is computed from the same
contentType.Schema pointer that was checked non-nil at line 122, hence
from some sch. -/
def validateBody (visit : VisitFn) (decode : DecodeFn)
    (input : ResponseValidationInput) (opts : List SchemaOpt)
    (contentType : MediaType) : VResult :=
  match contentType.schema with
  | none => { outcome := VOutcome.ok, body := input.body }
  | some sch =>
    match input.body with
    | none => { outcome := VOutcome.crash nilBodyMsg, body := none }
    | some stream =>
      match stream with
      | Except.error e =>
        { outcome := VOutcome.fail { reason := "failed to read response body", err := some e },
          body := none }
      | Except.ok data =>
        match decode data input.header sch (fun name => lookupFirst contentType.encoding name) with
        | Except.error e =>
          { outcome := VOutcome.fail { reason := "failed to decode response body", err := some e },
            body := some (Except.ok data) }
        | Except.ok value =>
          match visit sch.value value (opts ++ [SchemaOpt.visitAsResponse]) with
          | some e =>
            match getSchemaIdentifier (some sch) with
            | none => { outcome := VOutcome.crash nilSchemaMsg, body := some (Except.ok data) }
            | some schemaId =>
              { outcome := VOutcome.fail
                  { reason := "response body doesn\x27t match schema" ++ prependSpaceIfNeeded schemaId,
                    err := some e },
                body := some (Except.ok data) }
          | none => { outcome := VOutcome.ok, body := some (Except.ok data) }

/-- Lines 102-120: the gate on body validation and the content
negotiation. -/
def afterHeaders (visit : VisitFn) (decode : DecodeFn)
    (input : ResponseValidationInput) (options : Options)
    (response : Response) (opts : List SchemaOpt) : VResult :=
  if options.excludeResponseBody = true then
    { outcome := VOutcome.ok, body := input.body }
  else if response.content.length = 0 ∨ options.excludeResponseBody = true then
    { outcome := VOutcome.ok, body := input.body }
  else
    match contentGet response.content (headerGet input.header headerCT) with
    | none =>
      { outcome := VOutcome.fail
          { reason := "response header Content-Type has unexpected value: " ++
              goQuote (headerGet input.header headerCT),
            err := none },
        body := input.body }
    | some contentType => validateBody visit decode input opts contentType

/-- Lines 30-38: the closed list of status codes that are never validated:
304 Not Modified, 308 Permanent Redirect, 307 Temporary Redirect and
301 Moved Permanently. -/
def exemptStatus (s : Nat) : Bool :=
  s == 304 || s == 308 || s == 307 || s == 301

/-- Lines 41-43: nil options are replaced by DefaultOptions. -/
def effectiveOptions (input : ResponseValidationInput) : Options :=
  match input.options with
  | some o => o
  | none => DefaultOptions

/-- Lines 22-172: ValidateResponse.  The two oracle arguments stand for
the external schema engine and body decoder collaborators. -/
def validateResponse (visit : VisitFn) (decode : DecodeFn)
    (input : ResponseValidationInput) : VResult :=
  if input.method = "HEAD" then { outcome := VOutcome.ok, body := input.body }
  else if exemptStatus input.status = true then { outcome := VOutcome.ok, body := input.body }
  else if input.responses.length = 0 then { outcome := VOutcome.ok, body := input.body }
  else
    match lookupResponseRef input.responses input.status with
    | none =>
      if (effectiveOptions input).includeResponseStatus = true then
        { outcome := VOutcome.fail { reason := "status is not supported", err := none },
          body := input.body }
      else { outcome := VOutcome.ok, body := input.body }
    | some responseRef =>
      match responseRef.value with
      | none =>
        { outcome := VOutcome.fail { reason := "response has not been resolved", err := none },
          body := input.body }
      | some response =>
        match validateHeaders visit (buildOpts (effectiveOptions input)) response.headers
            input.header (sortedHeaderKeys response.headers) with
        | some e => { outcome := VOutcome.fail e, body := input.body }
        | none =>
          afterHeaders visit decode input (effectiveOptions input) response
            (buildOpts (effectiveOptions input))

/-- A schema engine that accepts every value. -/
def visitOK : VisitFn := fun _ _ _ => none

/-- A decoder that decodes every body to an opaque value. -/
def decodeOK : DecodeFn := fun _ _ _ _ => Except.ok ("decoded")

-- ### Helper lemmas

lemma effectiveOptions_eq {input : ResponseValidationInput} {o : Options}
    (h : input.options = some o) : effectiveOptions input = o := by
  unfold effectiveOptions
  rw [h]

lemma length_ne_zero_of_lookup {rs : List (String × ResponseRef)} {status : Nat}
    {r : ResponseRef} (h : lookupResponseRef rs status = some r) : rs.length ≠ 0 := by
  intro hlen
  have hnil : rs = [] := List.length_eq_zero.mp hlen
  subst hnil
  simp [lookupResponseRef, responsesGet, responsesDefault, lookupFirst] at h

/-- After the eligibility filter and a successful resolution to a resolved
response definition, ValidateResponse is the header loop followed by the
body pipeline. -/
lemma validateResponse_reached (visit : VisitFn) (decode : DecodeFn)
    (input : ResponseValidationInput) (rref : ResponseRef) (response : Response)
    (hm : input.method ≠ "HEAD") (hst : exemptStatus input.status = false)
    (hl : lookupResponseRef input.responses input.status = some rref)
    (hv : rref.value = some response) :
    validateResponse visit decode input =
      match validateHeaders visit (buildOpts (effectiveOptions input)) response.headers
          input.header (sortedHeaderKeys response.headers) with
      | some e => { outcome := VOutcome.fail e, body := input.body }
      | none =>
        afterHeaders visit decode input (effectiveOptions input) response
          (buildOpts (effectiveOptions input)) := by
  unfold validateResponse
  rw [if_neg hm, if_neg (by simp [hst]), if_neg (length_ne_zero_of_lookup hl), hl]
  dsimp only
  rw [hv]

-- ### Claim C4

/-- Claim C4: for every input whose request method is HEAD, or whose
status is one of exactly 301, 304, 307 and 308, validateResponse returns
success with the body untouched and without consulting the contract, the
headers or the body (the result is the same for every table, header map,
body and option set, since the input is universally quantified); for
every other method and status pair the exemption does not apply: some
input with that method and status fails validation. -/
theorem claim_C4 :
    (∀ s : Nat, exemptStatus s = true ↔ (s = 301 ∨ s = 304 ∨ s = 307 ∨ s = 308)) ∧
    (∀ (visit : VisitFn) (decode : DecodeFn) (input : ResponseValidationInput),
      ((input.method = "HEAD" ∨ exemptStatus input.status = true) →
        validateResponse visit decode input = { outcome := VOutcome.ok, body := input.body }) ∧
      (input.method ≠ "HEAD" → exemptStatus input.status = false →
        ∃ input2 : ResponseValidationInput,
          input2.method = input.method ∧ input2.status = input.status ∧
            (validateResponse visit decode input2).outcome ≠ VOutcome.ok)) := by
  constructor
  · intro s
    unfold exemptStatus
    simp only [Bool.or_eq_true, beq_iff_eq]
    omega
  · intro visit decode input
    constructor
    · intro h
      unfold validateResponse
      by_cases hm : input.method = "HEAD"
      · rw [if_pos hm]
      · rw [if_neg hm, if_pos (h.resolve_left hm)]
    · intro hm hst
      refine ⟨{ method := input.method, status := input.status, header := [], body := none,
                options := none,
                responses := [(toString input.status, { value := none })] }, rfl, rfl, ?_⟩
      unfold validateResponse
      rw [if_neg hm, if_neg (by simp [hst])]
      simp [lookupResponseRef, responsesGet, responsesDefault, lookupFirst]

def cw4 : ResponseValidationInput :=
  { method := "HEAD", status := 200, header := [], body := none,
    options := none, responses := [] }

/-- Witness for C4 at a concrete HEAD input. -/
theorem claim_C4_witness :
    validateResponse visitOK decodeOK cw4 = { outcome := VOutcome.ok, body := none } :=
  (claim_C4.2 visitOK decodeOK cw4).1 (Or.inl rfl)

-- ### Claim C2

/-- Claim C2: the response-definition resolver of validateResponse, once
the eligibility filter has passed: an empty response table succeeds
immediately; the lookup chain takes the exact-status entry when present
and otherwise the default entry; when neither exists, validation succeeds
when includeResponseStatus (the include-undocumented-status option) is
false and fails with the UndocumentedStatus reason, namely the message
status is not supported, when it is true. -/
theorem claim_C2 :
    ∀ (visit : VisitFn) (decode : DecodeFn) (input : ResponseValidationInput) (o : Options),
      input.options = some o →
      input.method ≠ "HEAD" →
      exemptStatus input.status = false →
      (input.responses = [] →
        validateResponse visit decode input = { outcome := VOutcome.ok, body := input.body }) ∧
      (∀ r, responsesGet input.responses input.status = some r →
        lookupResponseRef input.responses input.status = some r) ∧
      (responsesGet input.responses input.status = none →
        lookupResponseRef input.responses input.status = responsesDefault input.responses) ∧
      (lookupResponseRef input.responses input.status = none → input.responses ≠ [] →
        (o.includeResponseStatus = false →
          validateResponse visit decode input = { outcome := VOutcome.ok, body := input.body }) ∧
        (o.includeResponseStatus = true →
          validateResponse visit decode input =
            { outcome := VOutcome.fail { reason := "status is not supported", err := none },
              body := input.body })) := by
  intro visit decode input o hopts hm hst
  refine ⟨?_, ?_, ?_, ?_⟩
  · intro hnil
    unfold validateResponse
    rw [if_neg hm, if_neg (by simp [hst]), if_pos (by rw [hnil]; rfl)]
  · intro r hr
    unfold lookupResponseRef
    rw [hr]
  · intro hr
    unfold lookupResponseRef
    rw [hr]
  · intro hnone hne
    have hlen : ¬ input.responses.length = 0 := by
      simpa [List.length_eq_zero] using hne
    constructor
    · intro hflag
      unfold validateResponse
      rw [if_neg hm, if_neg (by simp [hst]), if_neg hlen, hnone]
      dsimp only
      rw [effectiveOptions_eq hopts, if_neg (by simp [hflag])]
    · intro hflag
      unfold validateResponse
      rw [if_neg hm, if_neg (by simp [hst]), if_neg hlen, hnone]
      dsimp only
      rw [effectiveOptions_eq hopts, if_pos hflag]

def oIncl : Options :=
  { includeResponseStatus := true, excludeResponseBody := false,
    multiError := false, customSchemaErrorFunc := none }

def cw2 : ResponseValidationInput :=
  { method := "GET", status := 200, header := [], body := none,
    options := some oIncl, responses := [("404", { value := none })] }

/-- Witness for C2 at a concrete undocumented status with the
include-undocumented-status option set. -/
theorem claim_C2_witness :
    validateResponse visitOK decodeOK cw2 =
      { outcome := VOutcome.fail { reason := "status is not supported", err := none },
        body := none } :=
  ((claim_C2 visitOK decodeOK cw2 oIncl rfl (by decide) (by decide)).2.2.2
    (by decide) (by decide)).2 rfl

-- ### Claim C5

/-- Claim C5: once the eligibility filter has passed, an input whose
status resolves (exactly or via the default entry) to a response
reference whose resolved value is nil always fails with the
UnresolvedResponse reason, namely the message response has not been
resolved, regardless of the observed headers and body and regardless of
the options (all of which are universally quantified here). -/
theorem claim_C5 :
    ∀ (visit : VisitFn) (decode : DecodeFn) (input : ResponseValidationInput)
      (rref : ResponseRef),
      input.method ≠ "HEAD" →
      exemptStatus input.status = false →
      lookupResponseRef input.responses input.status = some rref →
      rref.value = none →
      validateResponse visit decode input =
        { outcome := VOutcome.fail { reason := "response has not been resolved", err := none },
          body := input.body } := by
  intro visit decode input rref hm hst hl hv
  unfold validateResponse
  rw [if_neg hm, if_neg (by simp [hst]), if_neg (length_ne_zero_of_lookup hl), hl]
  dsimp only
  rw [hv]

def cw5 : ResponseValidationInput :=
  { method := "GET", status := 200, header := [("X-A", "ok")],
    body := none, options := none, responses := [("200", { value := none })] }

/-- Witness for C5 at a concrete input whose exact-status entry is an
unresolved reference. -/
theorem claim_C5_witness :
    validateResponse visitOK decodeOK cw5 =
      { outcome := VOutcome.fail { reason := "response has not been resolved", err := none },
        body := none } :=
  claim_C5 visitOK decodeOK cw5 { value := none } (by decide) (by decide) (by decide) rfl

-- ### Lemmas about the lexicographic order and the header loop

lemma strListLe_total : ∀ as bs : List Char, strListLe as bs = true ∨ strListLe bs as = true := by
  intro as
  induction as with
  | nil => intro bs; left; rfl
  | cons a as ih =>
    intro bs
    cases bs with
    | nil => right; rfl
    | cons b bs =>
      by_cases h1 : a.toNat < b.toNat
      · left; simp [strListLe, h1]
      · by_cases h2 : b.toNat < a.toNat
        · right; simp [strListLe, h2]
        · rcases ih bs with h | h
          · left; simp [strListLe, h1, h2, h]
          · right; simp [strListLe, h1, h2, h]

lemma strListLe_trans :
    ∀ as bs cs : List Char,
      strListLe as bs = true → strListLe bs cs = true → strListLe as cs = true := by
  intro as
  induction as with
  | nil => intro bs cs _ _; rfl
  | cons a as ih =>
    intro bs cs h1 h2
    cases bs with
    | nil => simp [strListLe] at h1
    | cons b bs =>
      cases cs with
      | nil => simp [strListLe] at h2
      | cons c cs =>
        by_cases hab : a.toNat < b.toNat
        · by_cases hbc : b.toNat < c.toNat
          · simp [strListLe, Nat.lt_trans hab hbc]
          · by_cases hcb : c.toNat < b.toNat
            · simp [strListLe, hbc, hcb] at h2
            · have hac : a.toNat < c.toNat := by omega
              simp [strListLe, hac]
        · by_cases hba : b.toNat < a.toNat
          · simp [strListLe, hab, hba] at h1
          · have hA : strListLe as bs = true := by
              simpa [strListLe, hab, hba] using h1
            by_cases hbc : b.toNat < c.toNat
            · have hac : a.toNat < c.toNat := by omega
              simp [strListLe, hac]
            · by_cases hcb : c.toNat < b.toNat
              · simp [strListLe, hbc, hcb] at h2
              · have hB : strListLe bs cs = true := by
                  simpa [strListLe, hbc, hcb] using h2
                have hac1 : ¬ a.toNat < c.toNat := by omega
                have hac2 : ¬ c.toNat < a.toNat := by omega
                simp [strListLe, hac1, hac2, ih bs cs hA hB]

instance : IsTotal String (fun a b => strLe a b = true) :=
  ⟨fun a b => strListLe_total a.data b.data⟩

instance : IsTrans String (fun a b => strLe a b = true) :=
  ⟨fun a b c => strListLe_trans a.data b.data c.data⟩

lemma sortedHeaderKeys_sorted (hs : List (String × HeaderSpec)) :
    List.Sorted (fun a b => strLe a b = true) (sortedHeaderKeys hs) :=
  List.sorted_insertionSort _ _

lemma sortedHeaderKeys_perm (hs : List (String × HeaderSpec)) :
    List.Perm (sortedHeaderKeys hs) ((hs.map Prod.fst).filter (fun k => k != headerCT)) :=
  List.perm_insertionSort _ _

lemma headerCT_not_mem_sortedHeaderKeys (hs : List (String × HeaderSpec)) :
    headerCT ∉ sortedHeaderKeys hs := by
  intro hmem
  have hmem2 := (sortedHeaderKeys_perm hs).mem_iff.mp hmem
  rw [List.mem_filter] at hmem2
  simp at hmem2

lemma headerGet_cons_self_empty (k : String) (tl : List (String × String)) :
    headerGet ((k, "") :: tl) k = "" := by
  unfold headerGet
  rw [List.find?_cons_of_pos _ (by simp)]

lemma checkHeader_missing (visit : VisitFn) (opts : List SchemaOpt)
    (hs : List (String × HeaderSpec)) (obs : List (String × String))
    (k : String) (s : HeaderSpec)
    (hlk : lookupFirst hs k = some s) (hreq : s.required = true)
    (hob : headerGet obs k = "") :
    checkHeader visit opts hs obs k =
      some { reason := "response header " ++ goQuote k ++ " missing", err := none } := by
  unfold checkHeader
  rw [hlk]
  dsimp only
  rw [hob, if_pos rfl, hreq, if_pos rfl]

lemma checkHeader_skip (visit : VisitFn) (opts : List SchemaOpt)
    (hs : List (String × HeaderSpec)) (obs : List (String × String))
    (k : String) (s : HeaderSpec)
    (hlk : lookupFirst hs k = some s) (hreq : s.required = false)
    (hob : headerGet obs k = "") :
    checkHeader visit opts hs obs k = none := by
  unfold checkHeader
  rw [hlk]
  dsimp only
  rw [hob, if_pos rfl, hreq]
  simp

lemma validateHeaders_first_fail (visit : VisitFn) (opts : List SchemaOpt)
    (hs : List (String × HeaderSpec)) (obs : List (String × String)) :
    ∀ (l1 : List String) (k : String) (l2 : List String) (e : ResponseError),
      (∀ k2 ∈ l1, checkHeader visit opts hs obs k2 = none) →
      checkHeader visit opts hs obs k = some e →
      validateHeaders visit opts hs obs (l1 ++ k :: l2) = some e := by
  intro l1
  induction l1 with
  | nil =>
    intro k l2 e _ hk
    simp [validateHeaders, hk]
  | cons a t ih =>
    intro k l2 e hall hk
    have ha := hall a (List.mem_cons_self a t)
    simp only [List.cons_append, validateHeaders, ha]
    exact ih k l2 e (fun k2 hm => hall k2 (List.mem_cons_of_mem a hm)) hk

-- ### Claim C6

/-- Claim C6: once the pipeline reaches the header stage, a declared
response header that is required and absent from the observed headers
makes validateResponse fail with the MissingHeader reason naming that
header (message response header %q missing), for every body content; the
hypothesis that all earlier keys pass places k as the first failing
header, which is the one the loop reports (see C7's early termination).
A declared header that is absent and not required is skipped without
failure: its per-header check succeeds. -/
theorem claim_C6 :
    ∀ (visit : VisitFn) (decode : DecodeFn) (input : ResponseValidationInput)
      (rref : ResponseRef) (response : Response) (l1 : List String) (k : String)
      (l2 : List String) (s : HeaderSpec),
      input.method ≠ "HEAD" →
      exemptStatus input.status = false →
      lookupResponseRef input.responses input.status = some rref →
      rref.value = some response →
      sortedHeaderKeys response.headers = l1 ++ k :: l2 →
      (∀ k2 ∈ l1,
        checkHeader visit (buildOpts (effectiveOptions input)) response.headers
          input.header k2 = none) →
      lookupFirst response.headers k = some s →
      headerGet input.header k = "" →
      (s.required = true →
        validateResponse visit decode input =
          { outcome := VOutcome.fail
              { reason := "response header " ++ goQuote k ++ " missing", err := none },
            body := input.body }) ∧
      (s.required = false →
        checkHeader visit (buildOpts (effectiveOptions input)) response.headers
          input.header k = none) := by
  intro visit decode input rref response l1 k l2 s hm hst hl hv hkeys hall hlk hob
  constructor
  · intro hreq
    have hck := checkHeader_missing visit (buildOpts (effectiveOptions input))
      response.headers input.header k s hlk hreq hob
    have hvh := validateHeaders_first_fail visit (buildOpts (effectiveOptions input))
      response.headers input.header l1 k l2 _ hall hck
    rw [validateResponse_reached visit decode input rref response hm hst hl hv, hkeys, hvh]
  · intro hreq
    exact checkHeader_skip visit (buildOpts (effectiveOptions input))
      response.headers input.header k s hlk hreq hob

def respReqHeader : Response :=
  { headers := [("X-Req", { required := true, schema := none })], content := [] }

def cw6 : ResponseValidationInput :=
  { method := "GET", status := 200, header := [], body := none,
    options := none, responses := [("200", { value := some respReqHeader })] }

/-- Witness for C6 at a concrete input with one required declared header
absent from the observed response. -/
theorem claim_C6_witness :
    validateResponse visitOK decodeOK cw6 =
      { outcome := VOutcome.fail
          { reason := "response header " ++ goQuote ("X-Req") ++ " missing", err := none },
        body := none } :=
  (claim_C6 visitOK decodeOK cw6 { value := some respReqHeader } respReqHeader
    [] ("X-Req") [] { required := true, schema := none }
    (by decide) (by decide) (by decide) rfl (by decide)
    (by intro k2 hm2; exact absurd hm2 (List.not_mem_nil k2)) (by decide) rfl).1 rfl

-- ### Claim C7

/-- Claim C7: the header loop of validateResponse iterates the declared
response header names in lexicographic order (the key list is sorted with
respect to the byte-wise order strLe and is a permutation of the declared
keys minus the Content-Type name, which is never a member); and the first
header whose check fails aborts the whole response validation
immediately: whatever follows the failing key (the suffix l2 is
universally quantified) and whatever the body pipeline would do, the
result is exactly that header failure and the body is untouched. -/
theorem claim_C7 :
    (∀ hs : List (String × HeaderSpec),
      List.Sorted (fun a b => strLe a b = true) (sortedHeaderKeys hs)) ∧
    (∀ hs : List (String × HeaderSpec),
      List.Perm (sortedHeaderKeys hs) ((hs.map Prod.fst).filter (fun k => k != headerCT))) ∧
    (∀ hs : List (String × HeaderSpec), headerCT ∉ sortedHeaderKeys hs) ∧
    (∀ (visit : VisitFn) (decode : DecodeFn) (input : ResponseValidationInput)
      (rref : ResponseRef) (response : Response) (l1 : List String) (k : String)
      (l2 : List String) (e : ResponseError),
      input.method ≠ "HEAD" →
      exemptStatus input.status = false →
      lookupResponseRef input.responses input.status = some rref →
      rref.value = some response →
      sortedHeaderKeys response.headers = l1 ++ k :: l2 →
      (∀ k2 ∈ l1,
        checkHeader visit (buildOpts (effectiveOptions input)) response.headers
          input.header k2 = none) →
      checkHeader visit (buildOpts (effectiveOptions input)) response.headers
        input.header k = some e →
      validateResponse visit decode input =
        { outcome := VOutcome.fail e, body := input.body }) := by
  refine ⟨sortedHeaderKeys_sorted, sortedHeaderKeys_perm, headerCT_not_mem_sortedHeaderKeys, ?_⟩
  intro visit decode input rref response l1 k l2 e hm hst hl hv hkeys hall hck
  have hvh := validateHeaders_first_fail visit (buildOpts (effectiveOptions input))
    response.headers input.header l1 k l2 e hall hck
  rw [validateResponse_reached visit decode input rref response hm hst hl hv, hkeys, hvh]

/-- A schema engine that rejects every value with an opaque violation. -/
def visitFail : VisitFn := fun _ _ _ => some ("violation")

def respTwoHeaders : Response :=
  { headers := [("X-B", { required := true, schema := none }),
                ("X-A", { required := false, schema := none })],
    content := [] }

def cw7 : ResponseValidationInput :=
  { method := "GET", status := 200, header := [("X-A", "v")], body := none,
    options := none, responses := [("200", { value := some respTwoHeaders })] }

/-- Witness for C7: with declared headers X-B (required, absent) and X-A
(present, rejected by the engine), the loop visits X-A first in sorted
order and its failure is the overall result; X-B is never reported. -/
theorem claim_C7_witness :
    validateResponse visitFail decodeOK cw7 =
      { outcome := VOutcome.fail
          { reason := "response header " ++ goQuote ("X-A") ++ " doesn\x27t match the schema",
            err := some ("violation") },
        body := none } :=
  claim_C7.2.2.2 visitFail decodeOK cw7 { value := some respTwoHeaders } respTwoHeaders
    [] ("X-A") [("X-B")] _
    (by decide) (by decide) (by decide) rfl (by decide)
    (by intro k2 hm2; exact absurd hm2 (List.not_mem_nil k2)) (by decide)

-- ### Claim C9

/-- Claim C9: an observed header that is present with an empty-string
value is indistinguishable from an absent header: headerGet returns the
empty string for it, the per-header check then fails with the
MissingHeader reason when the declared header is required (and succeeds,
skipping, when it is not), and the schema engine is never consulted (the
check's result is the same for every engine); lifted to validateResponse,
a required declared header observed with an empty value produces the
MissingHeader failure. -/
theorem claim_C9 :
    (∀ (k : String) (tl : List (String × String)), headerGet ((k, "") :: tl) k = "") ∧
    (∀ (visit : VisitFn) (opts : List SchemaOpt) (hs : List (String × HeaderSpec))
      (obs : List (String × String)) (k : String) (s : HeaderSpec),
      lookupFirst hs k = some s →
      headerGet obs k = "" →
      (checkHeader visit opts hs obs k =
        if s.required = true then
          some { reason := "response header " ++ goQuote k ++ " missing", err := none }
        else none) ∧
      (∀ visit2 : VisitFn, checkHeader visit opts hs obs k = checkHeader visit2 opts hs obs k)) ∧
    (∀ (visit : VisitFn) (decode : DecodeFn) (input : ResponseValidationInput)
      (rref : ResponseRef) (response : Response) (l1 : List String) (k : String)
      (l2 : List String) (s : HeaderSpec) (tl : List (String × String)),
      input.method ≠ "HEAD" →
      exemptStatus input.status = false →
      lookupResponseRef input.responses input.status = some rref →
      rref.value = some response →
      sortedHeaderKeys response.headers = l1 ++ k :: l2 →
      (∀ k2 ∈ l1,
        checkHeader visit (buildOpts (effectiveOptions input)) response.headers
          input.header k2 = none) →
      lookupFirst response.headers k = some s →
      s.required = true →
      input.header = (k, "") :: tl →
      validateResponse visit decode input =
        { outcome := VOutcome.fail
            { reason := "response header " ++ goQuote k ++ " missing", err := none },
          body := input.body }) := by
  refine ⟨headerGet_cons_self_empty, ?_, ?_⟩
  · intro visit opts hs obs k s hlk hob
    constructor
    · by_cases hreq : s.required = true
      · rw [if_pos hreq]
        exact checkHeader_missing visit opts hs obs k s hlk hreq hob
      · rw [if_neg hreq]
        exact checkHeader_skip visit opts hs obs k s hlk (by simpa using hreq) hob
    · intro visit2
      unfold checkHeader
      rw [hlk]
      dsimp only
      rw [hob, if_pos rfl, if_pos rfl]
  · intro visit decode input rref response l1 k l2 s tl hm hst hl hv hkeys hall hlk hreq hhdr
    have hob : headerGet input.header k = "" := by
      rw [hhdr]
      exact headerGet_cons_self_empty k tl
    have hck := checkHeader_missing visit (buildOpts (effectiveOptions input))
      response.headers input.header k s hlk hreq hob
    have hvh := validateHeaders_first_fail visit (buildOpts (effectiveOptions input))
      response.headers input.header l1 k l2 _ hall hck
    rw [validateResponse_reached visit decode input rref response hm hst hl hv, hkeys, hvh]

def cw9 : ResponseValidationInput :=
  { method := "GET", status := 200, header := [("X-Req", "")], body := none,
    options := none, responses := [("200", { value := some respReqHeader })] }

/-- Witness for C9 at a concrete input whose required declared header is
present with an empty value. -/
theorem claim_C9_witness :
    headerGet (cw9.header) ("X-Req") = "" ∧
    validateResponse visitFail decodeOK cw9 =
      { outcome := VOutcome.fail
          { reason := "response header " ++ goQuote ("X-Req") ++ " missing", err := none },
        body := none } :=
  ⟨claim_C9.1 ("X-Req") [],
   claim_C9.2.2 visitFail decodeOK cw9 { value := some respReqHeader } respReqHeader
     [] ("X-Req") [] { required := true, schema := none } []
     (by decide) (by decide) (by decide) rfl (by decide)
     (by intro k2 hm2; exact absurd hm2 (List.not_mem_nil k2)) (by decide) rfl rfl⟩

-- ### Lemmas about the schema identifier and the body stage

lemma getSchemaIdentifier_some (s : SchemaRef) :
    getSchemaIdentifier (some s) =
      some (if goTrimSpace s.ref = "" then
              (match s.value with
               | some v => goTrimSpace v.title
               | none => "")
            else goTrimSpace s.ref) := by
  unfold getSchemaIdentifier
  dsimp only
  by_cases h : goTrimSpace s.ref = ""
  · rw [if_pos h, if_pos h]
    cases hv : s.value with
    | none =>
      dsimp only
      rw [h]
    | some v => dsimp only
  · rw [if_neg h, if_neg h]

lemma string_ne_empty_length_pos {v : String} (h : v ≠ "") : v.length > 0 := by
  rcases v with ⟨data⟩
  cases data with
  | nil => exact absurd rfl h
  | cons c cs => simp [String.length]

lemma prependSpaceIfNeeded_eq (v : String) :
    prependSpaceIfNeeded v = if v = "" then "" else " " ++ v := by
  unfold prependSpaceIfNeeded
  by_cases h : v = ""
  · subst h
    rw [if_pos rfl]
    rfl
  · rw [if_neg h, if_pos (string_ne_empty_length_pos h)]

lemma schemaId_message (sch : SchemaRef) :
    prependSpaceIfNeeded
        (if goTrimSpace sch.ref = "" then
           (match sch.value with
            | some v => goTrimSpace v.title
            | none => "")
         else goTrimSpace sch.ref) =
      (if goTrimSpace sch.ref ≠ "" then " " ++ goTrimSpace sch.ref
       else match sch.value with
            | some v => if goTrimSpace v.title ≠ "" then " " ++ goTrimSpace v.title else ""
            | none => "") := by
  by_cases h1 : goTrimSpace sch.ref = ""
  · rw [if_pos h1, if_neg (fun hc => hc h1)]
    cases hval : sch.value with
    | none =>
      dsimp only
      rw [prependSpaceIfNeeded_eq, if_pos rfl]
    | some v =>
      dsimp only
      rw [prependSpaceIfNeeded_eq]
      by_cases h2 : goTrimSpace v.title = ""
      · rw [if_pos h2, if_neg (fun hc => hc h2)]
      · rw [if_neg h2, if_pos h2]
  · rw [if_neg h1, if_pos h1, prependSpaceIfNeeded_eq, if_neg h1]

-- ### Claim C8

/-- Claim C8: every BodySchemaMismatch failure carries the message
response body doesn\x27t match schema followed by a best-effort schema
identifier: the whitespace-trimmed reference path when it is non-empty,
else the whitespace-trimmed declared title when present and non-empty,
else nothing; when the identifier is non-empty exactly one separating
space precedes it, and when it is empty nothing at all is appended. -/
theorem claim_C8 :
    ∀ (visit : VisitFn) (decode : DecodeFn) (input : ResponseValidationInput)
      (rref : ResponseRef) (response : Response) (ct : MediaType) (sch : SchemaRef)
      (data : List Nat) (value : String) (err : String),
      input.method ≠ "HEAD" →
      exemptStatus input.status = false →
      lookupResponseRef input.responses input.status = some rref →
      rref.value = some response →
      validateHeaders visit (buildOpts (effectiveOptions input)) response.headers
        input.header (sortedHeaderKeys response.headers) = none →
      (effectiveOptions input).excludeResponseBody = false →
      response.content.length ≠ 0 →
      contentGet response.content (headerGet input.header headerCT) = some ct →
      ct.schema = some sch →
      input.body = some (Except.ok data) →
      decode data input.header sch (fun name => lookupFirst ct.encoding name) = Except.ok value →
      visit sch.value value
        (buildOpts (effectiveOptions input) ++ [SchemaOpt.visitAsResponse]) = some err →
      validateResponse visit decode input =
        { outcome := VOutcome.fail
            { reason := "response body doesn\x27t match schema" ++
                (if goTrimSpace sch.ref ≠ "" then " " ++ goTrimSpace sch.ref
                 else match sch.value with
                      | some v =>
                        if goTrimSpace v.title ≠ "" then " " ++ goTrimSpace v.title else ""
                      | none => ""),
              err := some err },
          body := some (Except.ok data) } := by
  intro visit decode input rref response ct sch data value err
  intro hm hst hl hv hhd hex hcl hct hsch hbody hdec hvis
  rw [validateResponse_reached visit decode input rref response hm hst hl hv, hhd]
  dsimp only
  unfold afterHeaders
  rw [if_neg (by simp [hex]), if_neg (by simp [hex, hcl]), hct]
  dsimp only
  unfold validateBody
  rw [hsch]
  dsimp only
  rw [hbody]
  dsimp only
  rw [hdec]
  dsimp only
  rw [hvis]
  dsimp only
  rw [getSchemaIdentifier_some sch]
  dsimp only
  rw [schemaId_message sch]

def schTitled : SchemaRef := { ref := "", value := some { title := "  Pet  " } }

def respPet : Response :=
  { headers := [],
    content := [("application/json", { schema := some schTitled, encoding := [] })] }

def cw8 : ResponseValidationInput :=
  { method := "GET", status := 200, header := [("Content-Type", "application/json")],
    body := some (Except.ok [123]), options := none,
    responses := [("200", { value := some respPet })] }

/-- Witness for C8 at a concrete input whose body is rejected by the
engine: the schema has no reference and the padded title Pet, so the
message gains exactly one separating space and the trimmed title. -/
theorem claim_C8_witness :
    validateResponse visitFail decodeOK cw8 =
      { outcome := VOutcome.fail
          { reason := "response body doesn\x27t match schema Pet", err := some ("violation") },
        body := some (Except.ok [123]) } := by
  have h := claim_C8 visitFail decodeOK cw8 { value := some respPet } respPet
    { schema := some schTitled, encoding := [] } schTitled [123] ("decoded") ("violation")
    (by decide) (by decide) (by decide) rfl rfl rfl (by decide) (by decide) rfl rfl rfl rfl
  rw [h]
  decide

-- ### Claim C10

lemma validateBody_no_schema_crash (visit : VisitFn) (decode : DecodeFn)
    (input : ResponseValidationInput) (opts : List SchemaOpt) (ct : MediaType) :
    (validateBody visit decode input opts ct).outcome ≠ VOutcome.crash nilSchemaMsg := by
  unfold validateBody
  cases hcs : ct.schema with
  | none => simp
  | some sch =>
    dsimp only
    cases hb : input.body with
    | none =>
      simp only
      intro hc
      have : nilBodyMsg = nilSchemaMsg := VOutcome.crash.inj hc
      simp [nilBodyMsg, nilSchemaMsg] at this
    | some stream =>
      dsimp only
      cases stream with
      | error e => simp
      | ok data =>
        dsimp only
        cases hd : decode data input.header sch (fun name => lookupFirst ct.encoding name) with
        | error e => simp
        | ok value =>
          dsimp only
          cases hv : visit sch.value value (opts ++ [SchemaOpt.visitAsResponse]) with
          | none => simp
          | some e =>
            dsimp only
            rw [getSchemaIdentifier_some sch]
            simp

lemma afterHeaders_no_schema_crash (visit : VisitFn) (decode : DecodeFn)
    (input : ResponseValidationInput) (options : Options) (response : Response)
    (opts : List SchemaOpt) :
    (afterHeaders visit decode input options response opts).outcome ≠
      VOutcome.crash nilSchemaMsg := by
  unfold afterHeaders
  by_cases h1 : options.excludeResponseBody = true
  · rw [if_pos h1]
    simp
  · rw [if_neg h1]
    by_cases h2 : response.content.length = 0 ∨ options.excludeResponseBody = true
    · rw [if_pos h2]
      simp
    · rw [if_neg h2]
      cases hct : contentGet response.content (headerGet input.header headerCT) with
      | none => simp
      | some ct =>
        dsimp only
        exact validateBody_no_schema_crash visit decode input opts ct

/-- Claim C10: getSchemaIdentifier is partial at a nil schema argument
(the result none models the nil-pointer dereference of schema.Value when
the trimmed reference is empty) and total on every non-nil argument; and
inside validateResponse the nil branch is unreachable, because the
function is only applied to the content schema after its nil check, so no
run of validateResponse ever produces the corresponding crash. -/
theorem claim_C10 :
    getSchemaIdentifier none = none ∧
    (∀ s : SchemaRef, (getSchemaIdentifier (some s)).isSome = true) ∧
    (∀ (visit : VisitFn) (decode : DecodeFn) (input : ResponseValidationInput),
      (validateResponse visit decode input).outcome ≠ VOutcome.crash nilSchemaMsg) := by
  refine ⟨rfl, ?_, ?_⟩
  · intro s
    rw [getSchemaIdentifier_some s]
    rfl
  · intro visit decode input
    unfold validateResponse
    by_cases hm : input.method = "HEAD"
    · rw [if_pos hm]
      simp
    · rw [if_neg hm]
      by_cases hst : exemptStatus input.status = true
      · rw [if_pos hst]
        simp
      · rw [if_neg hst]
        by_cases hlen : input.responses.length = 0
        · rw [if_pos hlen]
          simp
        · rw [if_neg hlen]
          cases hl : lookupResponseRef input.responses input.status with
          | none =>
            dsimp only
            by_cases hflag : (effectiveOptions input).includeResponseStatus = true
            · rw [if_pos hflag]
              simp
            · rw [if_neg hflag]
              simp
          | some rref =>
            dsimp only
            cases hv : rref.value with
            | none => simp
            | some response =>
              dsimp only
              cases hh : validateHeaders visit (buildOpts (effectiveOptions input))
                  response.headers input.header (sortedHeaderKeys response.headers) with
              | some e => simp
              | none =>
                dsimp only
                exact afterHeaders_no_schema_crash visit decode input
                  (effectiveOptions input) response (buildOpts (effectiveOptions input))

/-- Witness for C10 at concrete inputs. -/
theorem claim_C10_witness :
    (getSchemaIdentifier (some schTitled)).isSome = true ∧
    (validateResponse visitFail decodeOK cw8).outcome ≠ VOutcome.crash nilSchemaMsg :=
  ⟨claim_C10.2.1 schTitled, claim_C10.2.2 visitFail decodeOK cw8⟩

-- ### Claim C1

lemma validateBody_body_cases (visit : VisitFn) (decode : DecodeFn)
    (input : ResponseValidationInput) (opts : List SchemaOpt) (ct : MediaType) :
    (validateBody visit decode input opts ct).body = input.body ∨
    (∃ e, input.body = some (Except.error e) ∧
      validateBody visit decode input opts ct =
        { outcome := VOutcome.fail { reason := "failed to read response body", err := some e },
          body := none }) := by
  unfold validateBody
  cases hcs : ct.schema with
  | none => left; rfl
  | some sch =>
    dsimp only
    cases hb : input.body with
    | none =>
      left
      rfl
    | some stream =>
      dsimp only
      cases stream with
      | error e =>
        right
        exact ⟨e, rfl, rfl⟩
      | ok data =>
        dsimp only
        cases hd : decode data input.header sch (fun name => lookupFirst ct.encoding name) with
        | error e =>
          left
          rfl
        | ok value =>
          dsimp only
          cases hv : visit sch.value value (opts ++ [SchemaOpt.visitAsResponse]) with
          | none =>
            left
            rfl
          | some e =>
            dsimp only
            rw [getSchemaIdentifier_some sch]
            dsimp only
            left
            rfl

lemma afterHeaders_body_cases (visit : VisitFn) (decode : DecodeFn)
    (input : ResponseValidationInput) (options : Options) (response : Response)
    (opts : List SchemaOpt) :
    (afterHeaders visit decode input options response opts).body = input.body ∨
    (∃ e, input.body = some (Except.error e) ∧
      afterHeaders visit decode input options response opts =
        { outcome := VOutcome.fail { reason := "failed to read response body", err := some e },
          body := none }) := by
  unfold afterHeaders
  by_cases h1 : options.excludeResponseBody = true
  · rw [if_pos h1]
    left
    rfl
  · rw [if_neg h1]
    by_cases h2 : response.content.length = 0 ∨ options.excludeResponseBody = true
    · rw [if_pos h2]
      left
      rfl
    · rw [if_neg h2]
      cases hct : contentGet response.content (headerGet input.header headerCT) with
      | none =>
        left
        rfl
      | some ct =>
        dsimp only
        exact validateBody_body_cases visit decode input opts ct

/-- Claim C1, amended: after any call to validateResponse the Body field
either holds exactly the original stream value, hence yields the original
bytes on a later read (this covers every early return, where the body is
untouched, and every path past a successful read, where the captured
bytes are put back by SetBodyBytes), or the call took the BodyReadFailure
path, in which case the function returns the failed-to-read failure
wrapping the stream's error and leaves the Body field nil: on that one
path the body is not repopulated. -/
theorem claim_C1 :
    ∀ (visit : VisitFn) (decode : DecodeFn) (input : ResponseValidationInput),
      (validateResponse visit decode input).body = input.body ∨
      (∃ e, input.body = some (Except.error e) ∧
        validateResponse visit decode input =
          { outcome := VOutcome.fail { reason := "failed to read response body", err := some e },
            body := none }) := by
  intro visit decode input
  unfold validateResponse
  by_cases hm : input.method = "HEAD"
  · rw [if_pos hm]
    left
    rfl
  · rw [if_neg hm]
    by_cases hst : exemptStatus input.status = true
    · rw [if_pos hst]
      left
      rfl
    · rw [if_neg hst]
      by_cases hlen : input.responses.length = 0
      · rw [if_pos hlen]
        left
        rfl
      · rw [if_neg hlen]
        cases hl : lookupResponseRef input.responses input.status with
        | none =>
          dsimp only
          by_cases hflag : (effectiveOptions input).includeResponseStatus = true
          · rw [if_pos hflag]
            left
            rfl
          · rw [if_neg hflag]
            left
            rfl
        | some rref =>
          dsimp only
          cases hv : rref.value with
          | none =>
            left
            rfl
          | some response =>
            dsimp only
            cases hh : validateHeaders visit (buildOpts (effectiveOptions input))
                response.headers input.header (sortedHeaderKeys response.headers) with
            | some e =>
              left
              rfl
            | none =>
              dsimp only
              exact afterHeaders_body_cases visit decode input
                (effectiveOptions input) response (buildOpts (effectiveOptions input))

def respJSON : Response :=
  { headers := [],
    content := [("application/json",
      { schema := some { ref := "", value := some { title := "" } }, encoding := [] })] }

def cx1 : ResponseValidationInput :=
  { method := "GET", status := 200, header := [("Content-Type", "application/json")],
    body := some (Except.error ("boom")), options := none,
    responses := [("200", { value := some respJSON })] }

/-- Counterexample to C1 as stated: at this concrete input the body read
fails, validateResponse returns the BodyReadFailure failure, and the
Body field afterwards is nil rather than repopulated from captured
bytes, so reading the observed response's body afterwards cannot yield
the original bytes: the round-trip guarantee does not hold on the
BodyReadFailure path. -/
theorem claim_C1_counterexample :
    cx1.body = some (Except.error ("boom")) ∧
    validateResponse visitOK decodeOK cx1 =
      { outcome := VOutcome.fail { reason := "failed to read response body", err := some ("boom") },
        body := none } ∧
    (validateResponse visitOK decodeOK cx1).body ≠ cx1.body := by
  refine ⟨rfl, by decide, by decide⟩

-- ### Claim C3

lemma checkHeader_congr (visit visit2 : VisitFn) (opts : List SchemaOpt)
    (hs : List (String × HeaderSpec)) (obs : List (String × String)) (k : String)
    (h : ∀ sch v, visit sch v opts = visit2 sch v opts) :
    checkHeader visit opts hs obs k = checkHeader visit2 opts hs obs k := by
  unfold checkHeader
  cases hlk : lookupFirst hs k with
  | none => rfl
  | some s =>
    dsimp only
    by_cases hob : headerGet obs k = ""
    · rw [if_pos hob, if_pos hob]
    · rw [if_neg hob, if_neg hob, h s.schema (headerGet obs k)]

lemma validateHeaders_congr (visit visit2 : VisitFn) (opts : List SchemaOpt)
    (hs : List (String × HeaderSpec)) (obs : List (String × String))
    (h : ∀ sch v, visit sch v opts = visit2 sch v opts) :
    ∀ l : List String,
      validateHeaders visit opts hs obs l = validateHeaders visit2 opts hs obs l := by
  intro l
  induction l with
  | nil => rfl
  | cons a t ih =>
    simp only [validateHeaders]
    rw [checkHeader_congr visit visit2 opts hs obs a h, ih]

lemma validateBody_congr (visit visit2 : VisitFn) (decode : DecodeFn)
    (input : ResponseValidationInput) (opts : List SchemaOpt) (ct : MediaType)
    (h : ∀ sch v, visit sch v (opts ++ [SchemaOpt.visitAsResponse]) =
      visit2 sch v (opts ++ [SchemaOpt.visitAsResponse])) :
    validateBody visit decode input opts ct = validateBody visit2 decode input opts ct := by
  unfold validateBody
  cases hcs : ct.schema with
  | none => rfl
  | some sch =>
    dsimp only
    cases hb : input.body with
    | none => rfl
    | some stream =>
      dsimp only
      cases stream with
      | error e => rfl
      | ok data =>
        dsimp only
        cases hd : decode data input.header sch (fun name => lookupFirst ct.encoding name) with
        | error e => rfl
        | ok value =>
          dsimp only
          rw [h sch.value value]

lemma afterHeaders_congr (visit visit2 : VisitFn) (decode : DecodeFn)
    (input : ResponseValidationInput) (options : Options) (response : Response)
    (opts : List SchemaOpt)
    (h : ∀ sch v, visit sch v (opts ++ [SchemaOpt.visitAsResponse]) =
      visit2 sch v (opts ++ [SchemaOpt.visitAsResponse])) :
    afterHeaders visit decode input options response opts =
      afterHeaders visit2 decode input options response opts := by
  unfold afterHeaders
  by_cases h1 : options.excludeResponseBody = true
  · rw [if_pos h1, if_pos h1]
  · rw [if_neg h1, if_neg h1]
    by_cases h2 : response.content.length = 0 ∨ options.excludeResponseBody = true
    · rw [if_pos h2, if_pos h2]
    · rw [if_neg h2, if_neg h2]
      cases hct : contentGet response.content (headerGet input.header headerCT) with
      | none => rfl
      | some ct =>
        dsimp only
        exact validateBody_congr visit visit2 decode input opts ct h

/-- Claim C3, amended: the MultiErrors aggregation option is passed to
both kinds of schema check, not only to the body check: the engine option
list contains multiErrors exactly when the MultiError option is set, the
header checks receive exactly that list, and the body check receives the
same list extended with the response-direction marker — formally, the
outcome of validateResponse depends on the engine only through its values
at these two option lists. -/
theorem claim_C3 :
    ∀ o : Options,
      (SchemaOpt.multiErrors ∈ buildOpts o ↔ o.multiError = true) ∧
      (∀ (visit visit2 : VisitFn) (decode : DecodeFn) (input : ResponseValidationInput),
        input.options = some o →
        (∀ sch v, visit sch v (buildOpts o) = visit2 sch v (buildOpts o)) →
        (∀ sch v, visit sch v (buildOpts o ++ [SchemaOpt.visitAsResponse]) =
          visit2 sch v (buildOpts o ++ [SchemaOpt.visitAsResponse])) →
        validateResponse visit decode input = validateResponse visit2 decode input) := by
  intro o
  constructor
  · unfold buildOpts
    cases hmu : o.multiError with
    | false =>
      cases hcu : o.customSchemaErrorFunc.isSome with
      | false => simp
      | true => simp
    | true => simp
  · intro visit visit2 decode input hopts h1 h2
    have heff : effectiveOptions input = o := effectiveOptions_eq hopts
    unfold validateResponse
    rw [heff]
    by_cases hm : input.method = "HEAD"
    · rw [if_pos hm, if_pos hm]
    · rw [if_neg hm, if_neg hm]
      by_cases hst : exemptStatus input.status = true
      · rw [if_pos hst, if_pos hst]
      · rw [if_neg hst, if_neg hst]
        by_cases hlen : input.responses.length = 0
        · rw [if_pos hlen, if_pos hlen]
        · rw [if_neg hlen, if_neg hlen]
          cases hl : lookupResponseRef input.responses input.status with
          | none => rfl
          | some rref =>
            dsimp only
            cases hv : rref.value with
            | none => rfl
            | some response =>
              dsimp only
              rw [validateHeaders_congr visit visit2 (buildOpts o) response.headers
                input.header h1 (sortedHeaderKeys response.headers)]
              cases hh : validateHeaders visit2 (buildOpts o) response.headers
                  input.header (sortedHeaderKeys response.headers) with
              | some e => rfl
              | none =>
                dsimp only
                exact afterHeaders_congr visit visit2 decode input o response (buildOpts o) h2

/-- A schema engine that rejects a value exactly when the MultiErrors
option is among the options it receives. -/
def visitMultiSpy : VisitFn :=
  fun _ _ opts => if SchemaOpt.multiErrors ∈ opts then some ("aggregated") else none

def oMulti : Options :=
  { includeResponseStatus := false, excludeResponseBody := true,
    multiError := true, customSchemaErrorFunc := none }

def oNoMulti : Options :=
  { includeResponseStatus := false, excludeResponseBody := true,
    multiError := false, customSchemaErrorFunc := none }

def respOneHeader : Response :=
  { headers := [("X-A", { required := false, schema := none })], content := [] }

def cx3 : ResponseValidationInput :=
  { method := "GET", status := 200, header := [("X-A", "v")], body := none,
    options := some oMulti, responses := [("200", { value := some respOneHeader })] }

def cx3b : ResponseValidationInput :=
  { method := "GET", status := 200, header := [("X-A", "v")], body := none,
    options := some oNoMulti, responses := [("200", { value := some respOneHeader })] }

/-- Counterexample to C3 as stated: with MultiError set, the option list
handed to the schema check of the response header X-A contains
multiErrors — an engine that fails exactly when it receives multiErrors
rejects the header under MultiError and accepts it otherwise, so the
multi-error option is applied to the schema check of a response
header. -/
theorem claim_C3_counterexample :
    buildOpts oMulti = [SchemaOpt.multiErrors] ∧
    validateResponse visitMultiSpy decodeOK cx3 =
      { outcome := VOutcome.fail
          { reason := "response header " ++ goQuote ("X-A") ++ " doesn\x27t match the schema",
            err := some ("aggregated") },
        body := none } ∧
    validateResponse visitMultiSpy decodeOK cx3b = { outcome := VOutcome.ok, body := none } := by
  refine ⟨rfl, by decide, by decide⟩

/-- A schema engine that differs from visitOK only on the empty option
list, which validateResponse never passes. -/
def visitAlt : VisitFn :=
  fun _ _ opts =>
    match opts with
    | [] => some ("never")
    | _ => none

/-- Witness for C3 at a concrete option set and input. -/
theorem claim_C3_witness :
    SchemaOpt.multiErrors ∈ buildOpts oMulti ∧
    validateResponse visitOK decodeOK cx3 = validateResponse visitAlt decodeOK cx3 :=
  ⟨(claim_C3 oMulti).1.mpr rfl,
   (claim_C3 oMulti).2 visitOK visitAlt decodeOK cx3 rfl
     (fun _ _ => rfl) (fun _ _ => rfl)⟩

end OAIF
